import Mathlib

/-!
Verification development for the release selection decision engine of
arr-llm-release-picker.

The Python source is shallowly embedded: pure functions become Lean
functions, the network/JSON layer of the model client is abstracted as an
`LLMResponse` input value (the already-received outcome of the single HTTP
round trip), and the webhook handlers `webhook_radarr_override` /
`webhook_sonarr_override` from `app/routes.py` become pure functions from
the parsed payload, the caller-resolved tag list and profile name, the
configuration, and the model response, to a `Decision` together with the
list of notification intents they emit.
-/

namespace ArrPicker

/-- One candidate release as parsed from the Download Decision Override
payload (`app/routes.py` reads these fields with `dict.get`; the source's
defaults for absent keys are baked into the parsed value). -/
structure Release where
  guid : String
  title : String
  size : Nat
  seeders : Nat
  customFormatScore : Int
  languages : List String
  customFormats : List String
  isSelected : Bool
  ageMinutes : Nat
  indexerFlags : List String
  quality : String
  indexer : String
deriving Repr, DecidableEq, Inhabited

/-- Application configuration (`app/config.py`, dataclass `Config`),
restricted to the fields the decision path reads.  `service_prompts` is the
nested dict `service -> profile -> system_prompt`, modelled as an
association list (first match wins, as in a Python dict with unique keys). -/
structure Config where
  radarrConfigured : Bool
  sonarrConfigured : Bool
  service_prompts : List (String × List (String × String))
  dry_run : Bool
  skip_tag : String
deriving Repr, DecidableEq

/-- The parsed webhook payload fields the handler reads
(`payload.get('eventType','')`, `movie.get('id')` / `series.get('id')`,
`movie.get('title','Unknown')` / `series.get('title','Unknown')`,
`payload.get('releases', [])`). -/
structure Payload where
  eventType : String
  mediaId : Option Nat
  mediaTitle : String
  releases : List Release
deriving Repr, DecidableEq

/-- The webhook response value: `{'approved': ..., 'selectedReleaseGuid'?: ...,
'reason': ...}`. -/
structure Decision where
  approved : Bool
  selectedReleaseGuid : Option String
  reason : String
deriving Repr, DecidableEq

/-- A notification intent: a call to `send_notification` (`app/notifications.py`)
made by a webhook handler.  Only the kind and title are modelled; the message
body (which embeds a float-formatted size) is not read by any claim. -/
inductive Notification where
  | failure (title : String)
  | override (title : String)
deriving Repr, DecidableEq

/-- The outcome of the model client's single HTTP round trip, after the
code-fence stripping and `json.loads` of `app/llm.py` lines 61-99:
either the generic `except Exception` branch (transport / HTTP-status /
missing-key errors, reported as `str(e)`), a `json.JSONDecodeError`, or a
parsed JSON object, whose `"choice"` value is `some n` exactly when it is a
Python `int` (`choiceTypeName` is the `type(...)` text used in the error
message otherwise, with an absent key reading as `NoneType`) and whose
`"reason"` value is `some s` exactly when the key is present. -/
inductive LLMResponse where
  | transportError (msg : String)
  | invalidJson (msg : String)
  | parsed (choice : Option Int) (choiceTypeName : String) (reason : Option String)
deriving Repr, DecidableEq

/-- Python `str.lower()`, written over the string's character list so that it
evaluates in the kernel (`String.toLower` itself does not reduce). -/
def pyLower (s : String) : String := ⟨s.data.map Char.toLower⟩

/-- Python `str.strip()`: remove whitespace from both ends. -/
def pyStrip (s : String) : String :=
  ⟨((s.data.dropWhile Char.isWhitespace).reverse.dropWhile
      Char.isWhitespace).reverse⟩

/-- `get_system_prompt_for_profile` (`app/prompts.py` lines 13-35): lowercase
and strip both components, look the service up in `service_prompts` (missing
service reads as the empty dict) and the normalized profile up in the service
dict. -/
def get_system_prompt_for_profile (cfg : Config) (service profile : String) :
    Option String :=
  let normalized_service := pyStrip (pyLower service)
  let normalized_profile := pyStrip (pyLower profile)
  let service_prompts := (cfg.service_prompts.lookup normalized_service).getD []
  service_prompts.lookup normalized_profile

/-- The per-service prompt-dict construction of `load_config`
(`app/config.py` lines 200-205): each discovered profile directory name is
lowercased before being used as the key (`service_prompts[service][profile.lower()]`). -/
def load_profile_prompts (entries : List (String × String)) :
    List (String × String) :=
  entries.map (fun e => (pyLower e.1, e.2))

/-- Python's substring test `pat in s`. -/
def containsSub (s pat : String) : Bool :=
  (List.range (s.data.length + 1)).any
    (fun i => List.isPrefixOf pat.data (s.data.drop i))

/-- `ask_ai_for_selection` (`app/llm.py` lines 25-115) with the HTTP exchange
abstracted as the `resp` argument.  Returns the `(choice, reason)` pair of the
source: `(None, "AI bypassed - no prompt for this profile")` when prompt
resolution fails, error pairs for the three failure shapes, and otherwise the
integer choice with `parsed.get('reason', 'No reason provided')`.  (The prompt
text built from `format_releases_for_ai` only feeds the HTTP request and does
not influence the returned value.) -/
def ask_ai_for_selection (cfg : Config) (service profile : String)
    (resp : LLMResponse) : Option Int × String :=
  match get_system_prompt_for_profile cfg service profile with
  | none => (none, "AI bypassed - no prompt for this profile")
  | some _ =>
    match resp with
    | .transportError msg => (none, msg)
    | .invalidJson msg => (none, "Invalid JSON response: " ++ msg)
    | .parsed choice choiceTypeName reasonField =>
      match choice with
      | none => (none, "Invalid choice type: " ++ choiceTypeName)
      | some c => (some c, reasonField.getD "No reason provided")

/-- The age bucketing of `format_releases_for_ai` (`app/prompts.py` lines
76-82): minutes under 60, truncated hours under 1440 minutes, else truncated
days. -/
def formatAge (age_minutes : Nat) : String :=
  if age_minutes < 60 then toString age_minutes ++ "m"
  else if age_minutes < 1440 then toString (age_minutes / 60) ++ "h"
  else toString (age_minutes / 1440) ++ "d"

/-- Python truthiness of the optional numeric id (`if movie_id:` /
`if series_id:`). -/
def idTruthy : Option Nat → Bool
  | none => false
  | some n => n != 0

/-- `webhook_radarr_override` (`app/routes.py` lines 105-228), as a pure
function.  `tags` is the list `get_movie_tags` would return and
`fetchedProfileName` the name `get_quality_profile_name` would return; both
are network results resolved by the excluded HTTP layer, and are consulted
only where the source consults them (`if movie_id:`). -/
def webhook_radarr_override (cfg : Config) (payload : Option Payload)
    (tags : List String) (fetchedProfileName : String) (resp : LLMResponse) :
    Decision × List Notification :=
  if !cfg.radarrConfigured then
    (⟨true, none, "Radarr not configured"⟩, [])
  else
    match payload with
    | none => (⟨true, none, "Empty payload"⟩, [])
    | some p =>
      if p.eventType != "DownloadDecisionOverride" then
        (⟨true, none, "Ignored event type: " ++ p.eventType⟩, [])
      else if p.releases.isEmpty then
        (⟨true, none, "No releases to evaluate"⟩, [])
      else if idTruthy p.mediaId && tags.contains cfg.skip_tag then
        (⟨true, none, "Skipped: tag " ++ cfg.skip_tag ++ " present"⟩, [])
      else
        let profile_name :=
          if idTruthy p.mediaId then fetchedProfileName else "unknown"
        match ask_ai_for_selection cfg "radarr" profile_name resp with
        | (choice, reason) =>
          if choice.isNone && containsSub reason "AI bypassed" then
            (⟨true, none, reason⟩, [])
          else
            match choice with
            | none =>
              (⟨true, none, "AI failed: " ++ reason ++ ", using default"⟩,
               [Notification.failure ("AI Warning: " ++ p.mediaTitle)])
            | some c =>
              if c < 1 || c > (p.releases.length : Int) then
                (⟨true, none, "AI failed: " ++ reason ++ ", using default"⟩,
                 [Notification.failure ("AI Warning: " ++ p.mediaTitle)])
              else
                let selected := p.releases.getD (c.toNat - 1) default
                let default_selected := p.releases.find? (fun r => r.isSelected)
                let is_same_as_default :=
                  match default_selected with
                  | some d => d.guid == selected.guid
                  | none => false
                if is_same_as_default then
                  (⟨true, none, "AI confirms default: " ++ reason⟩, [])
                else if cfg.dry_run then
                  (⟨true, none, "[DRY RUN] Would select: " ++ selected.title⟩, [])
                else
                  (⟨true, some selected.guid, reason⟩,
                   [Notification.override ("AI Override: " ++ p.mediaTitle)])

/-- `webhook_sonarr_override` (`app/routes.py` lines 316-439): identical to
the Radarr handler except for the configuration guard, the `series` payload
fields, the service string passed to the model client, and notification
texts. -/
def webhook_sonarr_override (cfg : Config) (payload : Option Payload)
    (tags : List String) (fetchedProfileName : String) (resp : LLMResponse) :
    Decision × List Notification :=
  if !cfg.sonarrConfigured then
    (⟨true, none, "Sonarr not configured"⟩, [])
  else
    match payload with
    | none => (⟨true, none, "Empty payload"⟩, [])
    | some p =>
      if p.eventType != "DownloadDecisionOverride" then
        (⟨true, none, "Ignored event type: " ++ p.eventType⟩, [])
      else if p.releases.isEmpty then
        (⟨true, none, "No releases to evaluate"⟩, [])
      else if idTruthy p.mediaId && tags.contains cfg.skip_tag then
        (⟨true, none, "Skipped: tag " ++ cfg.skip_tag ++ " present"⟩, [])
      else
        let profile_name :=
          if idTruthy p.mediaId then fetchedProfileName else "unknown"
        match ask_ai_for_selection cfg "sonarr" profile_name resp with
        | (choice, reason) =>
          if choice.isNone && containsSub reason "AI bypassed" then
            (⟨true, none, reason⟩, [])
          else
            match choice with
            | none =>
              (⟨true, none, "AI failed: " ++ reason ++ ", using default"⟩,
               [Notification.failure ("AI Warning: " ++ p.mediaTitle)])
            | some c =>
              if c < 1 || c > (p.releases.length : Int) then
                (⟨true, none, "AI failed: " ++ reason ++ ", using default"⟩,
                 [Notification.failure ("AI Warning: " ++ p.mediaTitle)])
              else
                let selected := p.releases.getD (c.toNat - 1) default
                let default_selected := p.releases.find? (fun r => r.isSelected)
                let is_same_as_default :=
                  match default_selected with
                  | some d => d.guid == selected.guid
                  | none => false
                if is_same_as_default then
                  (⟨true, none, "AI confirms default: " ++ reason⟩, [])
                else if cfg.dry_run then
                  (⟨true, none, "[DRY RUN] Would select: " ++ selected.title⟩, [])
                else
                  (⟨true, some selected.guid, reason⟩,
                   [Notification.override ("AI Override: " ++ p.mediaTitle)])

/-! ### Concrete test fixtures used by witnesses and counterexamples -/

/-- Fixture: a release flagged `isSelected` (the manager's default). -/
def rAlpha : Release :=
  ⟨"a", "Alpha", 5368709120, 10, 3, ["English"], [], true, 59, [], "Bluray-1080p", "ix1"⟩

/-- Fixture: a second, unflagged release. -/
def rBeta : Release :=
  ⟨"b", "Beta", 10737418240, 20, 0, [], [], false, 61, [], "WEBDL-1080p", "ix2"⟩

/-- Fixture configuration: both services configured, one prompt per service
under profile key `hd`, dry run off, default skip tag. -/
def cfgTest : Config :=
  ⟨true, true,
   [("radarr", [("hd", "radarr system prompt")]),
    ("sonarr", [("hd", "sonarr system prompt")])],
   false, "no-ai"⟩

/-- Fixture payload with two releases. -/
def plTest : Payload := ⟨"DownloadDecisionOverride", some 7, "Media", [rAlpha, rBeta]⟩

/-- Fixture payload with the same two releases in the opposite order. -/
def plPermuted : Payload := ⟨"DownloadDecisionOverride", some 7, "Media", [rBeta, rAlpha]⟩

/-- Fixture payload with an empty release list. -/
def plEmpty : Payload := ⟨"DownloadDecisionOverride", some 7, "Media", []⟩

/-! ### Helper lemmas -/

/-- The Python sentinel check: the exact no-prompt reason string does contain
the substring `"AI bypassed"`. -/
theorem containsSub_bypassed :
    containsSub "AI bypassed - no prompt for this profile" "AI bypassed" = true := by
  decide

/-- The model client reads only `service_prompts` from the configuration, so
two configurations with the same prompt table produce the same result. -/
theorem ask_ai_congr (cfg₁ cfg₂ : Config) (service profile : String)
    (resp : LLMResponse) (h : cfg₁.service_prompts = cfg₂.service_prompts) :
    ask_ai_for_selection cfg₁ service profile resp =
      ask_ai_for_selection cfg₂ service profile resp := by
  simp [ask_ai_for_selection, get_system_prompt_for_profile, h]

/-- If every key of an association list differs from `k`, `List.lookup`
returns nothing. -/
theorem lookup_eq_none_of_all_ne {β : Type} (l : List (String × β)) (k : String)
    (h : l.all (fun kv => kv.1 != k) = true) : l.lookup k = none := by
  induction l with
  | nil => rfl
  | cons hd tl ih =>
    simp only [List.all_cons, Bool.and_eq_true, bne_iff_ne] at h
    have hk : (k == hd.1) = false := beq_eq_false_iff_ne.mpr (fun e => h.1 e.symm)
    simp only [List.lookup, hk]
    exact ih h.2

/-- A successful `List.lookup` comes from an entry whose key is exactly the
queried key. -/
theorem lookup_some_mem {β : Type} (l : List (String × β)) (k : String) (v : β)
    (h : l.lookup k = some v) : ∃ e ∈ l, e.1 = k ∧ e.2 = v := by
  induction l with
  | nil => simp [List.lookup] at h
  | cons hd tl ih =>
    cases hk : (k == hd.1) with
    | true =>
      simp only [List.lookup, hk] at h
      exact ⟨hd, by simp, (beq_iff_eq.mp hk).symm, by simpa using h⟩
    | false =>
      simp only [List.lookup, hk] at h
      obtain ⟨e, he, h1, h2⟩ := ih h
      exact ⟨e, by simp [he], h1, h2⟩

/-- A `selectedReleaseGuid` returned by the Radarr handler is the guid of the
release at the model's claimed 1-based index in the payload's release list,
and that index is in range. -/
theorem radarr_selected_guid (cfg : Config) (payload : Option Payload)
    (tags : List String) (prof : String) (resp : LLMResponse) (g : String)
    (h : (webhook_radarr_override cfg payload tags prof resp).1.selectedReleaseGuid =
      some g) :
    ∃ (p : Payload) (c : Int),
      payload = some p ∧
      (ask_ai_for_selection cfg "radarr"
          (if idTruthy p.mediaId then prof else "unknown") resp).1 = some c ∧
      1 ≤ c ∧ c ≤ (p.releases.length : Int) ∧
      g = (p.releases.getD (c.toNat - 1) default).guid := by
  revert h
  unfold webhook_radarr_override
  repeat' (first | split | dsimp only)
  all_goals intro h
  all_goals simp_all

/-- Sonarr analogue of `radarr_selected_guid`. -/
theorem sonarr_selected_guid (cfg : Config) (payload : Option Payload)
    (tags : List String) (prof : String) (resp : LLMResponse) (g : String)
    (h : (webhook_sonarr_override cfg payload tags prof resp).1.selectedReleaseGuid =
      some g) :
    ∃ (p : Payload) (c : Int),
      payload = some p ∧
      (ask_ai_for_selection cfg "sonarr"
          (if idTruthy p.mediaId then prof else "unknown") resp).1 = some c ∧
      1 ≤ c ∧ c ≤ (p.releases.length : Int) ∧
      g = (p.releases.getD (c.toNat - 1) default).guid := by
  revert h
  unfold webhook_sonarr_override
  repeat' (first | split | dsimp only)
  all_goals intro h
  all_goals simp_all

/-! ### Claims -/

/-- C2: for every webhook request, whatever branch the Radarr or Sonarr
handler takes, the returned decision has `approved = true`; no input produces
an `approved = false` decision. -/
theorem spec_C2 (cfg : Config) (payload : Option Payload) (tags : List String)
    (prof : String) (resp : LLMResponse) :
    (webhook_radarr_override cfg payload tags prof resp).1.approved = true ∧
    (webhook_sonarr_override cfg payload tags prof resp).1.approved = true := by
  constructor
  · unfold webhook_radarr_override
    repeat' (first | rfl | split | dsimp only)
  · unfold webhook_sonarr_override
    repeat' (first | rfl | split | dsimp only)

/-- C7: a request whose release list is empty short-circuits with
`approved = true` and reason `"No releases to evaluate"`; the result does not
depend on the tag list, the prompt table inside `cfg`, or the model response,
so no prompt resolution or model call can influence it. -/
theorem spec_C7 (cfg : Config) (p : Payload) (tags : List String)
    (prof : String) (resp : LLMResponse)
    (he : p.eventType = "DownloadDecisionOverride")
    (hempty : p.releases = []) :
    (cfg.radarrConfigured = true →
      webhook_radarr_override cfg (some p) tags prof resp =
        (⟨true, none, "No releases to evaluate"⟩, [])) ∧
    (cfg.sonarrConfigured = true →
      webhook_sonarr_override cfg (some p) tags prof resp =
        (⟨true, none, "No releases to evaluate"⟩, [])) := by
  constructor <;> intro hc <;>
    simp [webhook_radarr_override, webhook_sonarr_override, hc, he, hempty]

/-- C7 witness: the empty-payload fixture takes the no-releases branch in the
Radarr handler. -/
theorem spec_C7_witness :
    cfgTest.radarrConfigured = true ∧
    plEmpty.eventType = "DownloadDecisionOverride" ∧
    plEmpty.releases = [] ∧
    webhook_radarr_override cfgTest (some plEmpty) [] "hd"
        (.parsed (some 1) "int" none) =
      (⟨true, none, "No releases to evaluate"⟩, []) :=
  ⟨by decide, by decide, by decide,
   (spec_C7 cfgTest plEmpty [] "hd" (.parsed (some 1) "int" none)
      (by decide) (by decide)).1 (by decide)⟩

/-- C6: when prompt resolution returns nothing for the request's
(service, profile) pair and the request reaches prompt resolution (valid
event, non-empty releases, no skip tag), the decision is `approved = true`
with reason exactly `"AI bypassed - no prompt for this profile"`, for every
model response — so no model call influences the outcome. -/
theorem spec_C6 (cfg : Config) (p : Payload) (tags : List String)
    (prof : String) (resp : LLMResponse)
    (hr : cfg.radarrConfigured = true)
    (he : p.eventType = "DownloadDecisionOverride")
    (hne : p.releases.isEmpty = false)
    (hskip : ¬(idTruthy p.mediaId = true ∧ cfg.skip_tag ∈ tags))
    (hprompt : get_system_prompt_for_profile cfg "radarr"
        (if idTruthy p.mediaId then prof else "unknown") = none) :
    webhook_radarr_override cfg (some p) tags prof resp =
      (⟨true, none, "AI bypassed - no prompt for this profile"⟩, []) := by
  simp [webhook_radarr_override, ask_ai_for_selection, hr, he, hne, hskip,
    hprompt, containsSub_bypassed]

/-- C6 witness: profile `uhd` has no configured prompt in the fixture table,
so the fixture request is bypassed. -/
theorem spec_C6_witness :
    get_system_prompt_for_profile cfgTest "radarr"
        (if idTruthy plTest.mediaId then "uhd" else "unknown") = none ∧
    webhook_radarr_override cfgTest (some plTest) [] "uhd"
        (.parsed (some 1) "int" none) =
      (⟨true, none, "AI bypassed - no prompt for this profile"⟩, []) :=
  ⟨by decide,
   spec_C6 cfgTest plTest [] "uhd" (.parsed (some 1) "int" none)
     (by decide) (by decide) (by decide) (by decide) (by decide)⟩

/-- C8: for every non-negative `ageMinutes`, the formatter renders minutes
under 60, integer-truncated hours under 1440 minutes, and integer-truncated
days otherwise. -/
theorem spec_C8 (n : Nat) :
    (n < 60 → formatAge n = toString n ++ "m") ∧
    (60 ≤ n → n < 1440 → formatAge n = toString (n / 60) ++ "h") ∧
    (1440 ≤ n → formatAge n = toString (n / 1440) ++ "d") := by
  refine ⟨fun h1 => ?_, fun h2 h3 => ?_, fun h4 => ?_⟩
  · unfold formatAge; rw [if_pos h1]
  · unfold formatAge; rw [if_neg (by omega), if_pos h3]
  · unfold formatAge; rw [if_neg (by omega), if_neg (by omega)]

/-- C8 witness: the spec's boundary cases 59, 60, 1439 and 1440 minutes. -/
theorem spec_C8_witness :
    formatAge 59 = "59m" ∧ formatAge 60 = "1h" ∧
    formatAge 1439 = "23h" ∧ formatAge 1440 = "1d" :=
  ⟨((spec_C8 59).1 (by decide)).trans (by decide),
   ((spec_C8 60).2.1 (by decide) (by decide)).trans (by decide),
   ((spec_C8 1439).2.1 (by decide) (by decide)).trans (by decide),
   ((spec_C8 1440).2.2 (by decide)).trans (by decide)⟩

/-- C10: a model response parsing to a JSON object with an integer `choice`
but no `reason` key is accepted with the fallback reason string
`"No reason provided"` rather than treated as a validation failure. -/
theorem spec_C10 (cfg : Config) (service profile : String) (sp : String)
    (c : Int) (tn : String)
    (hprompt : get_system_prompt_for_profile cfg service profile = some sp) :
    ask_ai_for_selection cfg service profile (.parsed (some c) tn none) =
      (some c, "No reason provided") := by
  simp [ask_ai_for_selection, hprompt]

/-- C10 witness: choice 2 with a missing reason key against the fixture
prompt table. -/
theorem spec_C10_witness :
    get_system_prompt_for_profile cfgTest "radarr" "hd" =
      some "radarr system prompt" ∧
    ask_ai_for_selection cfgTest "radarr" "hd" (.parsed (some 2) "int" none) =
      (some 2, "No reason provided") :=
  ⟨by decide,
   spec_C10 cfgTest "radarr" "hd" "radarr system prompt" 2 "int" (by decide)⟩

/-- C4: when the model returns an in-range choice whose release `guid` equals
the `guid` of the first release flagged `isSelected` (the manager's default),
the decision is `approved = true` with no `selectedGuid`, reason
`"AI confirms default: <model reason>"`, and no notification is emitted. -/
theorem spec_C4 (cfg : Config) (p : Payload) (tags : List String)
    (prof : String) (resp : LLMResponse) (c : Int) (reason : String) (d : Release)
    (hr : cfg.radarrConfigured = true)
    (he : p.eventType = "DownloadDecisionOverride")
    (hne : p.releases.isEmpty = false)
    (hskip : ¬(idTruthy p.mediaId = true ∧ cfg.skip_tag ∈ tags))
    (hask : ask_ai_for_selection cfg "radarr"
        (if idTruthy p.mediaId then prof else "unknown") resp = (some c, reason))
    (hlo : 1 ≤ c) (hhi : c ≤ (p.releases.length : Int))
    (hdef : p.releases.find? (fun r => r.isSelected) = some d)
    (hguid : d.guid = (p.releases.getD (c.toNat - 1) default).guid) :
    webhook_radarr_override cfg (some p) tags prof resp =
      (⟨true, none, "AI confirms default: " ++ reason⟩, []) := by
  have h1 : ¬(c < 1) := by omega
  have h2 : ¬(c > (p.releases.length : Int)) := by omega
  simp [webhook_radarr_override, hr, he, hne, hskip, hask, h1, h2, hdef, hguid]

/-- C4 witness: the model picks release 1, which is the flagged default. -/
theorem spec_C4_witness :
    ask_ai_for_selection cfgTest "radarr"
        (if idTruthy plTest.mediaId then "hd" else "unknown")
        (.parsed (some 1) "int" (some "fine")) = (some 1, "fine") ∧
    plTest.releases.find? (fun r => r.isSelected) = some rAlpha ∧
    webhook_radarr_override cfgTest (some plTest) [] "hd"
        (.parsed (some 1) "int" (some "fine")) =
      (⟨true, none, "AI confirms default: fine"⟩, []) :=
  ⟨by decide, by decide,
   spec_C4 cfgTest plTest [] "hd" (.parsed (some 1) "int" (some "fine"))
     1 "fine" rAlpha (by decide) (by decide) (by decide) (by decide)
     (by decide) (by decide) (by decide) (by decide) (by decide)⟩

/-- C5: with dry run enabled and the model making an in-range choice of a
non-default release, the decision is `approved = true` with no `selectedGuid`,
reason `"[DRY RUN] Would select: <title>"`, and no notification; with the same
inputs but dry run disabled the handler would have selected exactly that
release's guid (the decision is computed identically up to the dry-run
suppression). -/
theorem spec_C5 :
    (∀ (cfg : Config) (p : Payload) (tags : List String) (prof : String)
        (resp : LLMResponse) (c : Int) (reason : String),
      cfg.radarrConfigured = true →
      p.eventType = "DownloadDecisionOverride" →
      p.releases.isEmpty = false →
      ¬(idTruthy p.mediaId = true ∧ cfg.skip_tag ∈ tags) →
      ask_ai_for_selection cfg "radarr"
        (if idTruthy p.mediaId then prof else "unknown") resp = (some c, reason) →
      1 ≤ c → c ≤ (p.releases.length : Int) →
      (∀ d, p.releases.find? (fun r => r.isSelected) = some d →
        d.guid ≠ (p.releases.getD (c.toNat - 1) default).guid) →
      cfg.dry_run = true →
      webhook_radarr_override cfg (some p) tags prof resp =
        (⟨true, none,
          "[DRY RUN] Would select: " ++ (p.releases.getD (c.toNat - 1) default).title⟩, []) ∧
      webhook_radarr_override { cfg with dry_run := false } (some p) tags prof resp =
        (⟨true, some (p.releases.getD (c.toNat - 1) default).guid, reason⟩,
         [Notification.override ("AI Override: " ++ p.mediaTitle)])) ∧
    (∀ (cfg : Config) (p : Payload) (tags : List String) (prof : String)
        (resp : LLMResponse) (c : Int) (reason : String),
      cfg.sonarrConfigured = true →
      p.eventType = "DownloadDecisionOverride" →
      p.releases.isEmpty = false →
      ¬(idTruthy p.mediaId = true ∧ cfg.skip_tag ∈ tags) →
      ask_ai_for_selection cfg "sonarr"
        (if idTruthy p.mediaId then prof else "unknown") resp = (some c, reason) →
      1 ≤ c → c ≤ (p.releases.length : Int) →
      (∀ d, p.releases.find? (fun r => r.isSelected) = some d →
        d.guid ≠ (p.releases.getD (c.toNat - 1) default).guid) →
      cfg.dry_run = true →
      webhook_sonarr_override cfg (some p) tags prof resp =
        (⟨true, none,
          "[DRY RUN] Would select: " ++ (p.releases.getD (c.toNat - 1) default).title⟩, []) ∧
      webhook_sonarr_override { cfg with dry_run := false } (some p) tags prof resp =
        (⟨true, some (p.releases.getD (c.toNat - 1) default).guid, reason⟩,
         [Notification.override ("AI Override: " ++ p.mediaTitle)])) := by
  constructor
  · intro cfg p tags prof resp c reason hr he hne hskip hask hlo hhi hnd hdry
    have h1 : ¬(c < 1) := by omega
    have h2 : ¬(c > (p.releases.length : Int)) := by omega
    have hask' : ask_ai_for_selection { cfg with dry_run := false } "radarr"
        (if idTruthy p.mediaId then prof else "unknown") resp = (some c, reason) :=
      (ask_ai_congr _ cfg _ _ _ rfl).trans hask
    simp only [hr] at hask'
    rcases hfd : p.releases.find? (fun r => r.isSelected) with _ | d
    · constructor <;>
        simp [webhook_radarr_override, hr, he, hne, hskip, hask, hask', h1, h2,
          hfd, hdry, -List.getD_eq_getElem?_getD]
    · have hne' := hnd d hfd
      constructor <;>
        simp [webhook_radarr_override, hr, he, hne, hskip, hask, hask', h1, h2,
          hfd, hdry, hne', -List.getD_eq_getElem?_getD]
  · intro cfg p tags prof resp c reason hs he hne hskip hask hlo hhi hnd hdry
    have h1 : ¬(c < 1) := by omega
    have h2 : ¬(c > (p.releases.length : Int)) := by omega
    have hask' : ask_ai_for_selection { cfg with dry_run := false } "sonarr"
        (if idTruthy p.mediaId then prof else "unknown") resp = (some c, reason) :=
      (ask_ai_congr _ cfg _ _ _ rfl).trans hask
    simp only [hs] at hask'
    rcases hfd : p.releases.find? (fun r => r.isSelected) with _ | d
    · constructor <;>
        simp [webhook_sonarr_override, hs, he, hne, hskip, hask, hask', h1, h2,
          hfd, hdry, -List.getD_eq_getElem?_getD]
    · have hne' := hnd d hfd
      constructor <;>
        simp [webhook_sonarr_override, hs, he, hne, hskip, hask, hask', h1, h2,
          hfd, hdry, hne', -List.getD_eq_getElem?_getD]

/-- C5 witness: dry run on, the model picks release 2 (not the default);
the dry-run decision names Beta and the non-dry-run decision would have
selected guid `b`, for both handlers. -/
theorem spec_C5_witness :
    ({ cfgTest with dry_run := true } : Config).dry_run = true ∧
    webhook_radarr_override { cfgTest with dry_run := true } (some plTest) [] "hd"
        (.parsed (some 2) "int" (some "better seeders")) =
      (⟨true, none, "[DRY RUN] Would select: Beta"⟩, []) ∧
    webhook_radarr_override
        { { cfgTest with dry_run := true } with dry_run := false }
        (some plTest) [] "hd" (.parsed (some 2) "int" (some "better seeders")) =
      (⟨true, some "b", "better seeders"⟩,
       [Notification.override "AI Override: Media"]) ∧
    webhook_sonarr_override { cfgTest with dry_run := true } (some plTest) [] "hd"
        (.parsed (some 2) "int" (some "better seeders")) =
      (⟨true, none, "[DRY RUN] Would select: Beta"⟩, []) := by
  have h := spec_C5.1 { cfgTest with dry_run := true } plTest [] "hd"
    (.parsed (some 2) "int" (some "better seeders")) 2 "better seeders"
    (by decide) (by decide) (by decide) (by decide) (by decide) (by decide)
    (by decide) (by decide) (by decide)
  have h2 := spec_C5.2 { cfgTest with dry_run := true } plTest [] "hd"
    (.parsed (some 2) "int" (some "better seeders")) 2 "better seeders"
    (by decide) (by decide) (by decide) (by decide) (by decide) (by decide)
    (by decide) (by decide) (by decide)
  exact ⟨by decide, h.1, h.2, h2.1⟩

/-- C1: a returned `selectedGuid` is always the guid of the release at the
model's claimed 1-based index, in range, in the original input ordering
(parts 1 and 2, Radarr and Sonarr), and for two requests whose release lists
are reorderings of one another with the claimed indices adjusted to address
the same release, both returned `selectedGuid`s (when present) coincide
(parts 3 and 4). -/
theorem spec_C1 :
    (∀ (cfg : Config) (payload : Option Payload) (tags : List String)
        (prof : String) (resp : LLMResponse) (g : String),
      (webhook_radarr_override cfg payload tags prof resp).1.selectedReleaseGuid =
        some g →
      ∃ (p : Payload) (c : Int),
        payload = some p ∧
        (ask_ai_for_selection cfg "radarr"
            (if idTruthy p.mediaId then prof else "unknown") resp).1 = some c ∧
        1 ≤ c ∧ c ≤ (p.releases.length : Int) ∧
        g = (p.releases.getD (c.toNat - 1) default).guid) ∧
    (∀ (cfg : Config) (payload : Option Payload) (tags : List String)
        (prof : String) (resp : LLMResponse) (g : String),
      (webhook_sonarr_override cfg payload tags prof resp).1.selectedReleaseGuid =
        some g →
      ∃ (p : Payload) (c : Int),
        payload = some p ∧
        (ask_ai_for_selection cfg "sonarr"
            (if idTruthy p.mediaId then prof else "unknown") resp).1 = some c ∧
        1 ≤ c ∧ c ≤ (p.releases.length : Int) ∧
        g = (p.releases.getD (c.toNat - 1) default).guid) ∧
    (∀ (cfg₁ cfg₂ : Config) (p₁ p₂ : Payload) (tags₁ tags₂ : List String)
        (prof₁ prof₂ : String) (resp₁ resp₂ : LLMResponse) (c₁ c₂ : Int)
        (g₁ g₂ : String),
      List.Perm p₁.releases p₂.releases →
      (ask_ai_for_selection cfg₁ "radarr"
          (if idTruthy p₁.mediaId then prof₁ else "unknown") resp₁).1 = some c₁ →
      (ask_ai_for_selection cfg₂ "radarr"
          (if idTruthy p₂.mediaId then prof₂ else "unknown") resp₂).1 = some c₂ →
      p₁.releases.getD (c₁.toNat - 1) default =
        p₂.releases.getD (c₂.toNat - 1) default →
      (webhook_radarr_override cfg₁ (some p₁) tags₁ prof₁ resp₁).1.selectedReleaseGuid =
        some g₁ →
      (webhook_radarr_override cfg₂ (some p₂) tags₂ prof₂ resp₂).1.selectedReleaseGuid =
        some g₂ →
      g₁ = g₂) ∧
    (∀ (cfg₁ cfg₂ : Config) (p₁ p₂ : Payload) (tags₁ tags₂ : List String)
        (prof₁ prof₂ : String) (resp₁ resp₂ : LLMResponse) (c₁ c₂ : Int)
        (g₁ g₂ : String),
      List.Perm p₁.releases p₂.releases →
      (ask_ai_for_selection cfg₁ "sonarr"
          (if idTruthy p₁.mediaId then prof₁ else "unknown") resp₁).1 = some c₁ →
      (ask_ai_for_selection cfg₂ "sonarr"
          (if idTruthy p₂.mediaId then prof₂ else "unknown") resp₂).1 = some c₂ →
      p₁.releases.getD (c₁.toNat - 1) default =
        p₂.releases.getD (c₂.toNat - 1) default →
      (webhook_sonarr_override cfg₁ (some p₁) tags₁ prof₁ resp₁).1.selectedReleaseGuid =
        some g₁ →
      (webhook_sonarr_override cfg₂ (some p₂) tags₂ prof₂ resp₂).1.selectedReleaseGuid =
        some g₂ →
      g₁ = g₂) := by
  refine ⟨radarr_selected_guid, sonarr_selected_guid, ?_, ?_⟩
  · intro cfg₁ cfg₂ p₁ p₂ tags₁ tags₂ prof₁ prof₂ resp₁ resp₂ c₁ c₂ g₁ g₂
    intro hperm hc₁ hc₂ hrel h₁ h₂
    obtain ⟨q₁, e₁, hq₁, hask₁, _, _, hg₁⟩ := radarr_selected_guid _ _ _ _ _ _ h₁
    obtain ⟨q₂, e₂, hq₂, hask₂, _, _, hg₂⟩ := radarr_selected_guid _ _ _ _ _ _ h₂
    obtain rfl : q₁ = p₁ := by injection hq₁.symm
    obtain rfl : q₂ = p₂ := by injection hq₂.symm
    rw [hc₁] at hask₁
    rw [hc₂] at hask₂
    obtain rfl : e₁ = c₁ := by injection hask₁.symm
    obtain rfl : e₂ = c₂ := by injection hask₂.symm
    rw [hg₁, hg₂, hrel]
  · intro cfg₁ cfg₂ p₁ p₂ tags₁ tags₂ prof₁ prof₂ resp₁ resp₂ c₁ c₂ g₁ g₂
    intro hperm hc₁ hc₂ hrel h₁ h₂
    obtain ⟨q₁, e₁, hq₁, hask₁, _, _, hg₁⟩ := sonarr_selected_guid _ _ _ _ _ _ h₁
    obtain ⟨q₂, e₂, hq₂, hask₂, _, _, hg₂⟩ := sonarr_selected_guid _ _ _ _ _ _ h₂
    obtain rfl : q₁ = p₁ := by injection hq₁.symm
    obtain rfl : q₂ = p₂ := by injection hq₂.symm
    rw [hc₁] at hask₁
    rw [hc₂] at hask₂
    obtain rfl : e₁ = c₁ := by injection hask₁.symm
    obtain rfl : e₂ = c₂ := by injection hask₂.symm
    rw [hg₁, hg₂, hrel]

/-- C1 witness: on the two-release fixture the model picks index 2 and the
returned guid is `b`; on the reversed list with adjusted index 1 the same
guid is selected, for both handlers. -/
theorem spec_C1_witness :
    ((webhook_radarr_override cfgTest (some plTest) [] "hd"
        (.parsed (some 2) "int" (some "r"))).1.selectedReleaseGuid = some "b") ∧
    (∃ (p : Payload) (c : Int),
      (some plTest : Option Payload) = some p ∧
      (ask_ai_for_selection cfgTest "radarr"
          (if idTruthy p.mediaId then "hd" else "unknown")
          (.parsed (some 2) "int" (some "r"))).1 = some c ∧
      1 ≤ c ∧ c ≤ (p.releases.length : Int) ∧
      "b" = (p.releases.getD (c.toNat - 1) default).guid) ∧
    (∃ (p : Payload) (c : Int),
      (some plTest : Option Payload) = some p ∧
      (ask_ai_for_selection cfgTest "sonarr"
          (if idTruthy p.mediaId then "hd" else "unknown")
          (.parsed (some 2) "int" (some "r"))).1 = some c ∧
      1 ≤ c ∧ c ≤ (p.releases.length : Int) ∧
      "b" = (p.releases.getD (c.toNat - 1) default).guid) ∧
    List.Perm plTest.releases plPermuted.releases ∧
    (("b" : String) = "b") ∧
    ((webhook_sonarr_override cfgTest (some plPermuted) [] "hd"
        (.parsed (some 1) "int" (some "r"))).1.selectedReleaseGuid = some "b") ∧
    ("b" = ("b" : String)) := by
  refine ⟨by decide, ?_, ?_, by decide, ?_, by decide, ?_⟩
  · exact spec_C1.1 cfgTest (some plTest) [] "hd"
      (.parsed (some 2) "int" (some "r")) "b" (by decide)
  · exact spec_C1.2.1 cfgTest (some plTest) [] "hd"
      (.parsed (some 2) "int" (some "r")) "b" (by decide)
  · exact spec_C1.2.2.1 cfgTest cfgTest plTest plPermuted [] [] "hd" "hd"
      (.parsed (some 2) "int" (some "r")) (.parsed (some 1) "int" (some "r"))
      2 1 "b" "b" (by decide) (by decide) (by decide) (by decide)
      (by decide) (by decide)
  · exact spec_C1.2.2.2 cfgTest cfgTest plTest plPermuted [] [] "hd" "hd"
      (.parsed (some 2) "int" (some "r")) (.parsed (some 1) "int" (some "r"))
      2 1 "b" "b" (by decide) (by decide) (by decide) (by decide)
      (by decide) (by decide)

/-- C3 (amended): when the request reaches the model call with a prompt
configured, and the model invocation either fails with a detail string not
containing the sentinel `"AI bypassed"` or returns an in-type but
out-of-range integer choice, the decision is `approved = true` with no
`selectedGuid` and reason `"AI failed: <detail>, using default"`, and one
failure notification is emitted; conversely (part 2), a failure notification
is only ever emitted together with a decision of exactly that shape. -/
theorem spec_C3 :
    (∀ (cfg : Config) (p : Payload) (tags : List String) (prof : String)
        (resp : LLMResponse) (sp : String),
      cfg.radarrConfigured = true →
      p.eventType = "DownloadDecisionOverride" →
      p.releases.isEmpty = false →
      ¬(idTruthy p.mediaId = true ∧ cfg.skip_tag ∈ tags) →
      get_system_prompt_for_profile cfg "radarr"
        (if idTruthy p.mediaId then prof else "unknown") = some sp →
      ((ask_ai_for_selection cfg "radarr"
            (if idTruthy p.mediaId then prof else "unknown") resp).1 = none ∧
          containsSub (ask_ai_for_selection cfg "radarr"
            (if idTruthy p.mediaId then prof else "unknown") resp).2 "AI bypassed" = false ∨
        (∃ c : Int, (ask_ai_for_selection cfg "radarr"
            (if idTruthy p.mediaId then prof else "unknown") resp).1 = some c ∧
          (c < 1 ∨ c > (p.releases.length : Int)))) →
      webhook_radarr_override cfg (some p) tags prof resp =
        (⟨true, none, "AI failed: " ++ (ask_ai_for_selection cfg "radarr"
            (if idTruthy p.mediaId then prof else "unknown") resp).2 ++ ", using default"⟩,
         [Notification.failure ("AI Warning: " ++ p.mediaTitle)])) ∧
    (∀ (cfg : Config) (payload : Option Payload) (tags : List String)
        (prof : String) (resp : LLMResponse) (t : String),
      Notification.failure t ∈ (webhook_radarr_override cfg payload tags prof resp).2 →
      ∃ detail, (webhook_radarr_override cfg payload tags prof resp).1 =
        ⟨true, none, "AI failed: " ++ detail ++ ", using default"⟩) := by
  constructor
  · intro cfg p tags prof resp sp hr he hne hskip hprompt hfail
    rcases hp : ask_ai_for_selection cfg "radarr"
        (if idTruthy p.mediaId then prof else "unknown") resp with ⟨choice, reason⟩
    rcases hfail with ⟨hn, hcs⟩ | ⟨c, hc, hrange⟩
    · rw [hp] at hn hcs
      simp only at hn hcs
      subst hn
      simp [webhook_radarr_override, hr, he, hne, hskip, hp, hcs]
    · rw [hp] at hc
      simp only at hc
      subst hc
      rcases hrange with h | h <;>
        simp [webhook_radarr_override, hr, he, hne, hskip, hp, h, Int.not_lt.mpr]
  · intro cfg payload tags prof resp t
    unfold webhook_radarr_override
    repeat' (first | split | dsimp only)
    all_goals intro hmem
    all_goals first
      | exact ⟨_, rfl⟩
      | simp at hmem

/-- C3 counterexample: with a prompt configured, a model transport failure
whose error text happens to contain `"AI bypassed"` is routed to the bypass
branch: the reason is the raw error text, not `"AI failed: ..."`, and no
failure notification is emitted, contradicting the claim for this failing
model invocation. -/
theorem spec_C3_counterexample :
    get_system_prompt_for_profile cfgTest "radarr"
        (if idTruthy plTest.mediaId then "hd" else "unknown") =
      some "radarr system prompt" ∧
    (ask_ai_for_selection cfgTest "radarr" "hd"
        (.transportError "proxy error: AI bypassed")).1 = none ∧
    webhook_radarr_override cfgTest (some plTest) [] "hd"
        (.transportError "proxy error: AI bypassed") =
      (⟨true, none, "proxy error: AI bypassed"⟩, []) ∧
    ("proxy error: AI bypassed" : String) ≠
      "AI failed: proxy error: AI bypassed, using default" := by
  refine ⟨by decide, by decide, by decide, by decide⟩

/-- C3 witness: choice 3 against the two-release fixture is out of range and
takes the failure branch with its notification. -/
theorem spec_C3_witness :
    (∃ c : Int, (ask_ai_for_selection cfgTest "radarr"
        (if idTruthy plTest.mediaId then "hd" else "unknown")
        (.parsed (some 3) "int" (some "pick 3"))).1 = some c ∧
      (c < 1 ∨ c > (plTest.releases.length : Int))) ∧
    webhook_radarr_override cfgTest (some plTest) [] "hd"
        (.parsed (some 3) "int" (some "pick 3")) =
      (⟨true, none, "AI failed: pick 3, using default"⟩,
       [Notification.failure "AI Warning: Media"]) := by
  refine ⟨⟨3, by decide, by decide⟩, ?_⟩
  have h := spec_C3.1 cfgTest plTest [] "hd"
    (.parsed (some 3) "int" (some "pick 3")) "radarr system prompt"
    (by decide) (by decide) (by decide) (by decide) (by decide)
    (Or.inr ⟨3, by decide, by decide⟩)
  exact h.trans (by decide)

/-- C9 (amended): prompt resolution is invariant under queries that agree
after lowercasing and whitespace-stripping (part 1); it fails when the
normalized profile matches no stored key for the normalized service
(part 2); it succeeds only via a stored entry whose key is exactly the
normalized profile (part 3); and stored keys are the loader's lowercased
directory names (part 4). -/
theorem spec_C9 :
    (∀ (cfg : Config) (s₁ s₂ p₁ p₂ : String),
      pyStrip (pyLower s₁) = pyStrip (pyLower s₂) →
      pyStrip (pyLower p₁) = pyStrip (pyLower p₂) →
      get_system_prompt_for_profile cfg s₁ p₁ =
        get_system_prompt_for_profile cfg s₂ p₂) ∧
    (∀ (cfg : Config) (s p : String),
      (((cfg.service_prompts.lookup (pyStrip (pyLower s))).getD []).all
        (fun kv => kv.1 != pyStrip (pyLower p))) = true →
      get_system_prompt_for_profile cfg s p = none) ∧
    (∀ (cfg : Config) (s p v : String),
      get_system_prompt_for_profile cfg s p = some v →
      ∃ e ∈ (cfg.service_prompts.lookup (pyStrip (pyLower s))).getD [],
        e.1 = pyStrip (pyLower p) ∧ e.2 = v) ∧
    (∀ (entries : List (String × String)) (k v : String),
      (load_profile_prompts entries).lookup k = some v →
      ∃ e ∈ entries, pyLower e.1 = k ∧ e.2 = v) := by
  refine ⟨?_, ?_, ?_, ?_⟩
  · intro cfg s₁ s₂ p₁ p₂ hs hp
    unfold get_system_prompt_for_profile
    rw [hs, hp]
  · intro cfg s p h
    exact lookup_eq_none_of_all_ne _ _ h
  · intro cfg s p v h
    exact lookup_some_mem _ _ _ h
  · intro entries k v h
    obtain ⟨e, he, h1, h2⟩ := lookup_some_mem _ _ _ h
    unfold load_profile_prompts at he
    obtain ⟨e', he', rfl⟩ := List.mem_map.mp he
    exact ⟨e', he', h1, h2⟩

/-- C9 counterexample: the query `" HD "` resolves to the stored prompt even
though no stored profile key equals `" HD "` under exact case-insensitive
comparison — the code additionally strips surrounding whitespace, refuting
"succeeds exactly when the pair matches by exact, case-insensitive
comparison". -/
theorem spec_C9_counterexample :
    get_system_prompt_for_profile cfgTest "radarr" " HD " =
      some "radarr system prompt" ∧
    (((cfgTest.service_prompts.lookup "radarr").getD []).all
      (fun kv => pyLower kv.1 != pyLower " HD ")) = true := by
  refine ⟨by decide, by decide⟩

/-- C9 witness: `" HD "` and `"hd"` normalize alike and resolve alike;
`uhd` matches no sonarr key and resolves to nothing; the `hd` hit comes from
the exact stored entry; a loader entry named `HD` is stored as `hd`. -/
theorem spec_C9_witness :
    pyStrip (pyLower " HD ") = pyStrip (pyLower "hd") ∧
    get_system_prompt_for_profile cfgTest "radarr" " HD " =
      get_system_prompt_for_profile cfgTest "radarr" "hd" ∧
    (((cfgTest.service_prompts.lookup (pyStrip (pyLower "sonarr"))).getD []).all
      (fun kv => kv.1 != pyStrip (pyLower "uhd"))) = true ∧
    get_system_prompt_for_profile cfgTest "sonarr" "uhd" = none ∧
    (∃ e ∈ (cfgTest.service_prompts.lookup (pyStrip (pyLower "radarr"))).getD [],
      e.1 = pyStrip (pyLower "hd") ∧ e.2 = "radarr system prompt") ∧
    (∃ e ∈ [("HD", "x")], pyLower e.1 = "hd" ∧ e.2 = ("x" : String)) := by
  refine ⟨by decide, ?_, by decide, ?_, ?_, ?_⟩
  · exact spec_C9.1 cfgTest "radarr" "radarr" " HD " "hd" (by decide) (by decide)
  · exact spec_C9.2.1 cfgTest "sonarr" "uhd" (by decide)
  · exact spec_C9.2.2.1 cfgTest "radarr" "hd" "radarr system prompt" (by decide)
  · exact spec_C9.2.2.2 [("HD", "x")] "hd" "x" (by decide)

end ArrPicker
